import Mathlib

/-
Verification development for the riptide docker engine container builder and
lifecycle orchestrator. The Python dictionaries of the source preserve
insertion order and overwrite in place on an existing key; they are embedded
as association lists with an in-place upsert operation.
-/

set_option maxHeartbeats 1000000

namespace Riptide

/-- In-place update of an association list on a key, appending at the end when
the key is absent. This is the write operation of an insertion-ordered
dictionary. -/
def upsert {K V : Type} [DecidableEq K] : List (K × V) → K → V → List (K × V)
  | [], k, v => [(k, v)]
  | (k', v') :: rest, k, v =>
    if k' = k then (k', v) :: rest else (k', v') :: upsert rest k v

/-- Lookup in an association list: value of the first entry with the key. -/
def alookup {K V : Type} [DecidableEq K] : List (K × V) → K → Option V
  | [], _ => none
  | (k', v') :: rest, k => if k' = k then some v' else alookup rest k

theorem alookup_upsert_self {K V : Type} [DecidableEq K]
    (m : List (K × V)) (k : K) (v : V) : alookup (upsert m k v) k = some v := by
  induction m with
  | nil => simp [upsert, alookup]
  | cons hd tl ih =>
    obtain ⟨k', v'⟩ := hd
    by_cases h : k' = k <;> simp [upsert, alookup, h, ih]

theorem alookup_upsert_ne {K V : Type} [DecidableEq K]
    (m : List (K × V)) (k k' : K) (v : V) (hne : k ≠ k') :
    alookup (upsert m k v) k' = alookup m k' := by
  induction m with
  | nil => simp [upsert, alookup, hne]
  | cons hd tl ih =>
    obtain ⟨k0, v0⟩ := hd
    by_cases h : k0 = k
    · subst h
      simp [upsert, alookup, hne]
    · simp only [upsert, if_neg h, alookup]
      by_cases h' : k0 = k' <;> simp [h', ih]

theorem alookup_upsert {K V : Type} [DecidableEq K]
    (m : List (K × V)) (k k' : K) (v : V) :
    alookup (upsert m k v) k' = if k = k' then some v else alookup m k' := by
  by_cases h : k = k'
  · subst h; simp [alookup_upsert_self]
  · simp [h, alookup_upsert_ne m k k' v h]

theorem mem_of_alookup_eq_some {K V : Type} [DecidableEq K]
    (m : List (K × V)) (k : K) (v : V) (h : alookup m k = some v) : (k, v) ∈ m := by
  induction m with
  | nil => simp [alookup] at h
  | cons hd tl ih =>
    obtain ⟨k', v'⟩ := hd
    by_cases hk : k' = k
    · subst hk
      simp [alookup] at h
      simp [h]
    · simp [alookup, hk] at h
      exact List.mem_cons_of_mem _ (ih h)

/-- Concatenation of the token lists produced for each element, in order.
This models the repeated `shell += [...]` loops of the CLI builder. -/
def catMap {A B : Type} (f : A → List B) : List A → List B
  | [] => []
  | x :: xs => f x ++ catMap f xs

theorem catMap_map {A A' B : Type} (g : A → A') (f : A' → List B) (l : List A) :
    catMap f (l.map g) = catMap (fun x => f (g x)) l := by
  induction l with
  | nil => rfl
  | cons x xs ih => simp [catMap, ih]

theorem isInfix_catMap_of_mem {A B : Type} (f : A → List B) (l : List A) (x : A)
    (h : x ∈ l) : f x <:+: catMap f l := by
  induction l with
  | nil => simp at h
  | cons y ys ih =>
    rcases List.mem_cons.mp h with h1 | h2
    · subst h1
      exact ⟨[], catMap f ys, by simp [catMap]⟩
    · obtain ⟨s, t, hst⟩ := ih h2
      exact ⟨f y ++ s, t, by simp [catMap, ← hst]⟩

theorem isInfix_append_left_right {B : Type} (l m x y : List B)
    (h : l <:+: m) : l <:+: x ++ m ++ y := by
  obtain ⟨s, t, hst⟩ := h
  exact ⟨x ++ s, t ++ y, by simp [← hst]⟩

theorem dropLast_append_two {B : Type} (xs : List B) (a c : B) :
    (xs ++ [a, c]).dropLast = xs ++ [a] := by
  have h : xs ++ [a, c] = (xs ++ [a]) ++ [c] := by simp
  rw [h, List.dropLast_concat]

theorem getLastD_append_two {B : Type} (xs : List B) (a c d : B) :
    (xs ++ [a, c]).getLastD d = c := by
  have h : xs ++ [a, c] = (xs ++ [a]) ++ [c] := by simp
  rw [h, List.getLastD_eq_getLast?, List.getLast?_concat]
  rfl

theorem str_append_empty (s : String) : s ++ "" = s := by
  cases s with
  | mk data => show String.mk (data ++ []) = String.mk data; simp

/- ===== container_builder.py: constants ===== -/

def RIPTIDE_DOCKER_LABEL_IS_RIPTIDE : String := "riptide"

def RIPTIDE_DOCKER_LABEL_SERVICE : String := "riptide_service"

def RIPTIDE_DOCKER_LABEL_PROJECT : String := "riptide_project"

def RIPTIDE_DOCKER_LABEL_MAIN : String := "riptide_main"

def RIPTIDE_DOCKER_LABEL_HTTP_PORT : String := "riptide_port"

def ENTRYPOINT_CONTAINER_PATH : String := "/entrypoint_riptide.sh"

def EENV_DONT_RUN_CMD : String := "RIPTIDE__DOCKER_DONT_RUN_CMD"

def EENV_USER : String := "RIPTIDE__DOCKER_USER"

def EENV_USER_RUN : String := "RIPTIDE__DOCKER_USER_RUN"

def EENV_GROUP : String := "RIPTIDE__DOCKER_GROUP"

def EENV_RUN_MAIN_CMD_AS_USER : String := "RIPTIDE__DOCKER_RUN_MAIN_CMD_AS_USER"

def EENV_ORIGINAL_ENTRYPOINT : String := "RIPTIDE__DOCKER_ORIGINAL_ENTRYPOINT"

def EENV_COMMAND_LOG_PREFIX : String := "RIPTIDE__DOCKER_CMD_LOGGING_"

def DOCKER_ENGINE_HTTP_PORT_BND_START : Nat := 30000

/-- Modelled from the spec: the wrapper script shipped in the assets directory
of the engine, mounted read-only into every managed container. The assets
module itself is outside the source under verification, so the host path is a
fixed abstract value. -/
def riptide_entrypoint_script : String := "/riptide_assets/entrypoint.sh"

/- ===== container_builder.py: data model ===== -/

/-- A command is a string or an ordered argument list (Python Union). -/
inductive Cmd where
  | str (s : String)
  | list (l : List String)
deriving DecidableEq, Repr

/-- docker.types.Mount as the builder constructs it: bind mount with a
delegated consistency hint. -/
structure Mount where
  target : String
  source : String
  mount_type : String
  read_only : Bool
  consistency : String
deriving DecidableEq, Repr

/-- The mount descriptor produced by ContainerBuilder.set_mount. -/
def mountOf (host_path container_path mode : String) : Mount :=
  { target := container_path
    source := host_path
    mount_type := "bind"
    read_only := mode = "ro"
    consistency := "delegated" }

/-- The mutable state of ContainerBuilder. Python dictionaries are embedded
as insertion-ordered association lists. -/
structure ContainerBuilder where
  env : List (String × String)
  labels : List (String × String)
  mounts : List (String × Mount)
  ports : List (Nat × Nat)
  network : Option String
  name : Option String
  entrypoint : Option String
  command : Cmd
  args : List String
  work_dir : Option String
  image : String
  run_as_root : Bool
  hostname : Option String
deriving DecidableEq, Repr

/-- ContainerBuilder.__init__(image, command). -/
def mkContainerBuilder (image : String) (command : Cmd) : ContainerBuilder :=
  { env := []
    labels := upsert [] RIPTIDE_DOCKER_LABEL_IS_RIPTIDE "1"
    mounts := []
    ports := []
    network := none
    name := none
    entrypoint := none
    command := command
    args := []
    work_dir := none
    image := image
    run_as_root := false
    hostname := none }

def set_env (b : ContainerBuilder) (name val : String) : ContainerBuilder :=
  { b with env := upsert b.env name val }

def set_label (b : ContainerBuilder) (name val : String) : ContainerBuilder :=
  { b with labels := upsert b.labels name val }

def set_mount (b : ContainerBuilder) (host_path container_path mode : String) :
    ContainerBuilder :=
  { b with mounts := upsert b.mounts host_path (mountOf host_path container_path mode) }

def set_port (b : ContainerBuilder) (cnt host : Nat) : ContainerBuilder :=
  { b with ports := upsert b.ports cnt host }

def set_network (b : ContainerBuilder) (network : String) : ContainerBuilder :=
  { b with network := some network }

def set_name (b : ContainerBuilder) (name : String) : ContainerBuilder :=
  { b with name := some name }

def set_entrypoint (b : ContainerBuilder) (entrypoint : String) : ContainerBuilder :=
  { b with entrypoint := some entrypoint }

def set_args (b : ContainerBuilder) (args : List String) : ContainerBuilder :=
  { b with args := args }

def set_workdir (b : ContainerBuilder) (work_dir : String) : ContainerBuilder :=
  { b with work_dir := some work_dir }

def set_hostname (b : ContainerBuilder) (hostname : String) : ContainerBuilder :=
  { b with hostname := some hostname }

/- ===== container_builder.py: entrypoint override protocol ===== -/

/-- The declared entrypoint of an image: absent (None), exec form (list) or
shell form (string). -/
inductive Entrypoint where
  | null
  | list (l : List String)
  | str (s : String)
deriving DecidableEq, Repr

/-- parse_entrypoint, with the in-place mutation of a list argument made
explicit: the second component is the value the caller observes in its
variable after the call (the source pops the first element of a list). -/
def parse_entrypoint_state : Entrypoint → List (String × String) × Entrypoint
  | .null => ([( EENV_ORIGINAL_ENTRYPOINT, "")], .null)
  | .list [] => ([( EENV_ORIGINAL_ENTRYPOINT, "")], .list [])
  | .list (command :: rest) =>
    ([( EENV_ORIGINAL_ENTRYPOINT,
        command ++ " " ++ String.intercalate " " (rest.map (fun entry => "\"" ++ entry ++ "\"")))],
     .list rest)
  | .str s =>
    if s = "" then ([( EENV_ORIGINAL_ENTRYPOINT, "")], .str s)
    else ([( EENV_ORIGINAL_ENTRYPOINT, "/bin/sh -c " ++ s), ( EENV_DONT_RUN_CMD, "true")], .str s)

/-- The returned dictionary of parse_entrypoint. -/
def parse_entrypoint (e : Entrypoint) : List (String × String) :=
  (parse_entrypoint_state e).1

/- ===== configuration documents (external inputs of the builder) ===== -/

/-- The image metadata the builder consumes: the declared entrypoint and the
default user ("User" absent or a string, possibly empty). -/
structure ImageConfig where
  entrypoint : Entrypoint
  user : Option String
deriving DecidableEq, Repr

/-- A declared volume: bind target and mode; an empty mode string stands for
the falsy mode the source replaces with "rw". -/
structure VolumeEntry where
  bind : String
  mode : String
deriving DecidableEq, Repr

/-- The data a service document exposes to this subsystem. -/
structure Service where
  name : String
  port : Option Nat
  dont_create_user : Bool
  run_as_current_user : Bool
  roles : Option (List String)
  logging_commands : Option (List (String × String))
  volumes : List (String × VolumeEntry)
  environment : List (String × String)
  additional_ports : List (Nat × Nat)
  project_name : String
deriving DecidableEq, Repr

/-- The data a command document exposes to this subsystem. -/
structure CommandDoc where
  volumes : List (String × VolumeEntry)
  environment : List (String × String)
deriving DecidableEq, Repr

/-- Python `volume[ "mode" ] or "rw"`: an empty (falsy) mode becomes "rw". -/
def orRw (mode : String) : String := if mode = "" then "rw" else mode

/-- Python dict.update: upsert every entry of the second dictionary into the
first, in order. -/
def dictUpdate (d upd : List (String × String)) : List (String × String) :=
  upd.foldl (fun acc kv => upsert acc kv.1 kv.2) d

/- ===== container_builder.py: initialization helpers ===== -/

/-- ContainerBuilder.enable_riptide_entrypoint(image_config). -/
def enable_riptide_entrypoint (b : ContainerBuilder) (image_config : ImageConfig) :
    ContainerBuilder :=
  let b := { b with run_as_root := true }
  let b := set_mount b riptide_entrypoint_script ENTRYPOINT_CONTAINER_PATH "ro"
  let b := (parse_entrypoint image_config.entrypoint).foldl
    (fun b kv => set_env b kv.1 kv.2) b
  set_entrypoint b ENTRYPOINT_CONTAINER_PATH

/-- ContainerBuilder._init_common: entrypoint override, then declared volumes,
then declared environment. -/
def init_common (b : ContainerBuilder) (volumes : List (String × VolumeEntry))
    (environment : List (String × String)) (image_config : ImageConfig) :
    ContainerBuilder :=
  let b := enable_riptide_entrypoint b image_config
  let b := volumes.foldl (fun b hv => set_mount b hv.1 hv.2.bind (orRw hv.2.mode)) b
  environment.foldl (fun b kv => set_env b kv.1 kv.2) b

/-- service_collect_labels(service, project_name). -/
def service_collect_labels (service : Service) (project_name : String) :
    List (String × String) :=
  let labels := [(RIPTIDE_DOCKER_LABEL_IS_RIPTIDE, "1"),
                 (RIPTIDE_DOCKER_LABEL_PROJECT, project_name),
                 (RIPTIDE_DOCKER_LABEL_SERVICE, service.name),
                 (RIPTIDE_DOCKER_LABEL_MAIN, "0")]
  match service.roles with
  | some roles =>
    if "main" ∈ roles then upsert labels RIPTIDE_DOCKER_LABEL_MAIN "1" else labels
  | none => labels

/-- service_collect_logging_commands(service). -/
def service_collect_logging_commands (service : Service) : List (String × String) :=
  match service.logging_commands with
  | some commands =>
    commands.foldl (fun env nc => upsert env ( EENV_COMMAND_LOG_PREFIX ++ nc.1) nc.2) []
  | none => []

/-- service_collect_entrypoint_user_settings(service, user, user_group,
image_config); user and user_group are the host uid and gid probed by the
external cpuser helpers. -/
def service_collect_entrypoint_user_settings (service : Service)
    (user user_group : Nat) (image_config : ImageConfig) : List (String × String) :=
  let environment : List (String × String) := []
  let environment :=
    if !service.dont_create_user then
      upsert (upsert environment EENV_USER (toString user)) EENV_GROUP (toString user_group)
    else environment
  if service.run_as_current_user then
    upsert environment EENV_RUN_MAIN_CMD_AS_USER "yes"
  else
    match image_config.user with
    | some u =>
      if u ≠ "" then
        upsert (upsert environment EENV_RUN_MAIN_CMD_AS_USER "yes") EENV_USER_RUN u
      else environment
    | none => environment

/-- ContainerBuilder.init_from_service(service, image_config); uid and gid
stand for the external getuid()/getgid() probes. -/
def init_from_service (b : ContainerBuilder) (service : Service)
    (image_config : ImageConfig) (uid gid : Nat) : ContainerBuilder :=
  let b := init_common b service.volumes service.environment image_config
  let labels := service_collect_labels service service.project_name
  let ports := service.additional_ports
  let environment_updates := dictUpdate (service_collect_logging_commands service)
    (service_collect_entrypoint_user_settings service uid gid image_config)
  let b := environment_updates.foldl (fun b kv => set_env b kv.1 kv.2) b
  let b := labels.foldl (fun b kv => set_label b kv.1 kv.2) b
  ports.foldl (fun b ch => set_port b ch.1 ch.2) b

/-- ContainerBuilder.service_add_main_port(service); alloc stands for the
external find_open_port_starting_at probe of the port allocator. -/
def service_add_main_port (b : ContainerBuilder) (service : Service)
    (alloc : Nat → Nat) : ContainerBuilder :=
  match service.port with
  | some p =>
    let main_port := alloc DOCKER_ENGINE_HTTP_PORT_BND_START
    let b := set_label b RIPTIDE_DOCKER_LABEL_HTTP_PORT (toString main_port)
    set_port b p main_port
  | none => b

/-- ContainerBuilder.init_from_command(command, image_config). -/
def init_from_command (b : ContainerBuilder) (command : CommandDoc)
    (image_config : ImageConfig) : ContainerBuilder :=
  init_common b command.volumes command.environment image_config

/- ===== container_builder.py: the two emission paths ===== -/

/-- Python " ".join for a string-or-list command. -/
def cmdJoin : Cmd → String
  | .str s => s
  | .list l => String.intercalate " " l

/-- The individually quoted extra arguments, space-joined:
Python " ".join of the formatted arguments. -/
def quoteJoin (args : List String) : String :=
  String.intercalate " " (args.map (fun w => "\"" ++ w ++ "\""))

/-- Python truthiness for an optional string: None and "" are falsy. The
source guards every optional option with `if self.x:`. -/
def optSet : Option String → Option String
  | some s => if s = "" then none else some s
  | none => none

/-- The containers.run argument bundle that build_docker_api emits. -/
structure ApiArgs where
  detach : Bool
  remove : Bool
  image : String
  command : Cmd
  name : Option String
  network : Option String
  entrypoint : Option (List String)
  working_dir : Option String
  user : Option Nat
  hostname : Option String
  environment : List (String × String)
  labels : List (String × String)
  ports : List (Nat × Nat)
  mounts : List Mount
deriving DecidableEq, Repr

/-- ContainerBuilder.build_docker_api(detach, remove). -/
def build_docker_api (b : ContainerBuilder) (detach remove : Bool) : ApiArgs :=
  { detach := detach
    remove := remove
    image := b.image
    command :=
      if b.args.isEmpty then b.command
      else .str (cmdJoin b.command ++ " " ++ quoteJoin b.args)
    name := optSet b.name
    network := optSet b.network
    entrypoint := (optSet b.entrypoint).map (fun e => [e])
    working_dir := optSet b.work_dir
    user := if b.run_as_root then some 0 else none
    hostname := optSet b.hostname
    environment := b.env
    labels := b.labels
    ports := b.ports
    mounts := b.mounts.map (fun hm => hm.2) }

/-- platform.system().lower().startswith("mac"), on the string the platform
probe reports. -/
def isMacFamily (system : String) : Bool :=
  match (system.data.map Char.toLower) with
  | 'm' :: 'a' :: 'c' :: _ => true
  | _ => false

/-- The `-v` token of one mount in the CLI emission, with the delegated
consistency suffix exactly on the Mac platform family. -/
def cliMountTok (system : String) (m : Mount) : List String :=
  ["-v", m.source ++ ":" ++ m.target ++ ":" ++ (if m.read_only then "ro" else "rw")
          ++ (if isMacFamily system then ":delegated" else "")]

/-- The token pair of one conditional single-valued option. -/
def optTokens (flag : String) : Option String → List String
  | some s => [flag, s]
  | none => []

/-- The token group of one conditional list-valued option. -/
def listTokens (flag : String) : Option (List String) → List String
  | some l => flag :: l
  | none => []

/-- The token pair of one conditional numeric option. -/
def natTokens (flag : String) : Option Nat → List String
  | some u => [flag, toString u]
  | none => []

/-- The conditional option tokens of build_docker_cli, in source order: each
`if self.x:`-guarded pair is emitted exactly when the option is truthy. -/
def cliOptTokens (b : ContainerBuilder) : List String :=
  optTokens "--name" (optSet b.name)
  ++ optTokens "--network" (optSet b.network)
  ++ optTokens "--entrypoint" (optSet b.entrypoint)
  ++ optTokens "-w" (optSet b.work_dir)
  ++ (if b.run_as_root then ["-u", toString (0 : Nat)] else [])
  ++ optTokens "--hostname" (optSet b.hostname)

/-- ContainerBuilder.build_docker_cli(); system is the string the external
platform probe reports. -/
def build_docker_cli (b : ContainerBuilder) (system : String) : List String :=
  ["docker", "run", "--rm", "-it"]
  ++ cliOptTokens b
  ++ catMap (fun kv => ["-e", kv.1 ++ "=" ++ kv.2]) b.env
  ++ catMap (fun kv => ["--label", kv.1 ++ "=" ++ kv.2]) b.labels
  ++ catMap (fun ch => ["-p", toString ch.2 ++ ":" ++ toString ch.1]) b.ports
  ++ catMap (fun hm => cliMountTok system hm.2) b.mounts
  ++ [b.image, cmdJoin b.command ++ " " ++ quoteJoin b.args]

/- ===== semantic reading of the API bundle, and its CLI rendering ===== -/

/-- The launch a container specification describes: the claim compares the two
emission paths on exactly these components. -/
structure LaunchSem where
  image : String
  cmdString : String
  name : Option String
  network : Option String
  entrypoint : Option (List String)
  working_dir : Option String
  user : Option Nat
  hostname : Option String
  env : List (String × String)
  labels : List (String × String)
  ports : List (Nat × Nat)
  mounts : List Mount
deriving DecidableEq, Repr

/-- The launch described by an API argument bundle; a list command denotes the
space-joined command string. -/
def apiSem (a : ApiArgs) : LaunchSem :=
  { image := a.image
    cmdString := cmdJoin a.command
    name := a.name
    network := a.network
    entrypoint := a.entrypoint
    working_dir := a.working_dir
    user := a.user
    hostname := a.hostname
    env := a.environment
    labels := a.labels
    ports := a.ports
    mounts := a.mounts }

/-- The CLI token list describing a launch: one option pair per present
option, one token pair per env, label, port and mount entry, then the image
and the final command string. -/
def cliTokensOfSem (sem : LaunchSem) (system : String) : List String :=
  ["docker", "run", "--rm", "-it"]
  ++ optTokens "--name" sem.name
  ++ optTokens "--network" sem.network
  ++ listTokens "--entrypoint" sem.entrypoint
  ++ optTokens "-w" sem.working_dir
  ++ natTokens "-u" sem.user
  ++ optTokens "--hostname" sem.hostname
  ++ catMap (fun kv => ["-e", kv.1 ++ "=" ++ kv.2]) sem.env
  ++ catMap (fun kv => ["--label", kv.1 ++ "=" ++ kv.2]) sem.labels
  ++ catMap (fun ch => ["-p", toString ch.2 ++ ":" ++ toString ch.1]) sem.ports
  ++ catMap (fun m => cliMountTok system m) sem.mounts
  ++ [sem.image, sem.cmdString]

/- ===== container_builder.py: naming helpers ===== -/

def get_cmd_container_name (project_name command_name : String) (pid : Nat) : String :=
  "riptide__" ++ project_name ++ "__cmd__" ++ command_name ++ "__" ++ toString pid

def get_network_name (project_name : String) : String :=
  "riptide__" ++ project_name

def get_service_container_name (project_name service_name : String) : String :=
  "riptide__" ++ project_name ++ "__" ++ service_name

/- ===== engine.py: lifecycle orchestration ===== -/

/-- What start_project does to the result queue of one requested name before
returning: either it schedules an asynchronous start task on the worker pool,
or it immediately terminates the queue with a terminal error. -/
inductive QueueOutcome where
  | taskScheduled
  | endedWithError (msg : String)
deriving DecidableEq, Repr

/-- The project data the orchestrator consumes: its name and the declared
services keyed by name. -/
structure Project where
  name : String
  services : List (String × Service)
deriving DecidableEq, Repr

/-- DockerEngine.start_project: one queue per requested name, in request
order; the asynchronous tasks and the result channel are represented by the
action taken on each queue at scheduling time. -/
def start_project (project : Project) (services : List String) :
    List (String × QueueOutcome) :=
  services.map (fun service_name =>
    (service_name,
     if service_name ∈ project.services.map Prod.fst then QueueOutcome.taskScheduled
     else QueueOutcome.endedWithError "Service not found."))

/-- The state the docker backend reports for a container. -/
structure DContainer where
  status : String
  labels : List (String × String)
deriving DecidableEq, Repr

/-- Result of client.containers.get(name): the container, the NotFound error
(a docker APIError) or another APIError. -/
inductive GetResult where
  | found (c : DContainer)
  | notFound
  | apiError
deriving DecidableEq, Repr

/-- DockerEngine.address_for for a declared service: backend is the
containers.get call of the docker client; all modelled backend errors are
caught and yield no address. -/
def address_for (project_name service_name : String) (service : Service)
    (backend : String → GetResult) : Option (String × String) :=
  match service.port with
  | none => none
  | some _ =>
    match backend (get_service_container_name project_name service_name) with
    | .found c =>
      if c.status ≠ "running" then none
      else
        match alookup c.labels RIPTIDE_DOCKER_LABEL_HTTP_PORT with
        | some port => some ("127.0.0.1", port)
        | none => none
    | .notFound => none
    | .apiError => none

/- ===== call sequences over the builder (map mutators) ===== -/

/-- One call of a map-valued mutator. -/
inductive BuilderCall where
  | env (k v : String)
  | label (k v : String)
  | mount (host container mode : String)
  | port (cnt host : Nat)
deriving DecidableEq, Repr

def applyCall (b : ContainerBuilder) : BuilderCall → ContainerBuilder
  | .env k v => set_env b k v
  | .label k v => set_label b k v
  | .mount host container mode => set_mount b host container mode
  | .port cnt host => set_port b cnt host

def applyCalls (b : ContainerBuilder) (calls : List BuilderCall) : ContainerBuilder :=
  calls.foldl applyCall b

/-- The value of the last write a call sequence performs on key k of the map
selected by g, if any. -/
def lastValW {K V : Type} [DecidableEq K] (g : BuilderCall → Option (K × V)) :
    List BuilderCall → K → Option V
  | [], _ => none
  | c :: rest, k =>
    match lastValW g rest k with
    | some v => some v
    | none =>
      match g c with
      | some kv => if kv.1 = k then some kv.2 else none
      | none => none

def envWriteOf : BuilderCall → Option (String × String)
  | .env k v => some (k, v)
  | _ => none

def labelWriteOf : BuilderCall → Option (String × String)
  | .label k v => some (k, v)
  | _ => none

def mountWriteOf : BuilderCall → Option (String × Mount)
  | .mount host container mode => some (host, mountOf host container mode)
  | _ => none

def portWriteOf : BuilderCall → Option (Nat × Nat)
  | .port cnt host => some (cnt, host)
  | _ => none

def lastEnvWrite (calls : List BuilderCall) (k : String) : Option String :=
  lastValW envWriteOf calls k

def lastLabelWrite (calls : List BuilderCall) (k : String) : Option String :=
  lastValW labelWriteOf calls k

def lastMountWrite (calls : List BuilderCall) (host : String) : Option Mount :=
  lastValW mountWriteOf calls host

def lastPortWrite (calls : List BuilderCall) (cnt : Nat) : Option Nat :=
  lastValW portWriteOf calls cnt

/- ===== operations over the builder (label invariant) ===== -/

/-- Any operation a caller can perform on a builder after construction. -/
inductive Op where
  | setEnv (k v : String)
  | setLabel (k v : String)
  | setMount (host container mode : String)
  | setPort (cnt host : Nat)
  | setNetwork (n : String)
  | setName (n : String)
  | setEntrypoint (e : String)
  | setArgs (a : List String)
  | setWorkdir (w : String)
  | setHostname (h : String)
  | enableEntrypoint (ic : ImageConfig)
  | initFromService (s : Service) (ic : ImageConfig) (uid gid : Nat)
  | initFromCommand (c : CommandDoc) (ic : ImageConfig)
  | addMainPort (s : Service) (alloc : Nat → Nat)

def applyOp (b : ContainerBuilder) : Op → ContainerBuilder
  | .setEnv k v => set_env b k v
  | .setLabel k v => set_label b k v
  | .setMount host container mode => set_mount b host container mode
  | .setPort cnt host => set_port b cnt host
  | .setNetwork n => set_network b n
  | .setName n => set_name b n
  | .setEntrypoint e => set_entrypoint b e
  | .setArgs a => set_args b a
  | .setWorkdir w => set_workdir b w
  | .setHostname h => set_hostname b h
  | .enableEntrypoint ic => enable_riptide_entrypoint b ic
  | .initFromService s ic uid gid => init_from_service b s ic uid gid
  | .initFromCommand c ic => init_from_command b c ic
  | .addMainPort s alloc => service_add_main_port b s alloc

def applyOps (b : ContainerBuilder) (ops : List Op) : ContainerBuilder :=
  ops.foldl applyOp b

/-- An operation preserves the is-managed marker unless it is an explicit
overwrite of the marker label key with another value. -/
def preservesMarker : Op → Bool
  | .setLabel k v => !(k = RIPTIDE_DOCKER_LABEL_IS_RIPTIDE && v ≠ "1")
  | _ => true

/-- First of a pair of options that is present. -/
def orElseO {A : Type} : Option A → Option A → Option A
  | some v, _ => some v
  | none, o => o

/- ===== shared concrete sample values for the witnesses ===== -/

/-- A sample service declaring primary port 8080. -/
def sampleService : Service :=
  { name := "web"
    port := some 8080
    dont_create_user := false
    run_as_current_user := false
    roles := some ["main"]
    logging_commands := none
    volumes := []
    environment := []
    additional_ports := []
    project_name := "demo" }

/-- A sample freshly constructed builder. -/
def sampleBuilder : ContainerBuilder := mkContainerBuilder "img" (Cmd.str "run")

/- ===== C2: the parse_entrypoint contract ===== -/

/-- Claim C2 as stated is false at two inputs: the empty string (a falsy
entrypoint, treated as absent, so no shell-form wrapping and no do-not-run
flag) and a one-element exec list (the flattening appends a trailing
space). -/
theorem parse_entrypoint_counterexample :
    (parse_entrypoint (.str "")
      ≠ [( EENV_ORIGINAL_ENTRYPOINT, "/bin/sh -c "), ( EENV_DONT_RUN_CMD, "true")])
    ∧ parse_entrypoint (.str "") = [( EENV_ORIGINAL_ENTRYPOINT, "")]
    ∧ (parse_entrypoint (.list ["/bin/foo"]) ≠ [( EENV_ORIGINAL_ENTRYPOINT, "/bin/foo")])
    ∧ parse_entrypoint (.list ["/bin/foo"]) = [( EENV_ORIGINAL_ENTRYPOINT, "/bin/foo ")] := by
  refine ⟨by decide, by decide, by decide, by decide⟩

/-- Claim C2 (amended): an absent, empty-string or empty-list entrypoint
yields exactly the empty original-entrypoint variable and no do-not-run flag;
a non-empty exec list yields the executable, a space, and the space-joined
individually double-quoted arguments (hence a trailing space when there are
no arguments); a non-empty shell-form string s yields "/bin/sh -c " ++ s
together with the do-not-run flag set to "true". -/
theorem parse_entrypoint_contract (exe s : String) (args : List String) :
    parse_entrypoint .null = [( EENV_ORIGINAL_ENTRYPOINT, "")]
    ∧ parse_entrypoint (.str "") = [( EENV_ORIGINAL_ENTRYPOINT, "")]
    ∧ parse_entrypoint (.list []) = [( EENV_ORIGINAL_ENTRYPOINT, "")]
    ∧ parse_entrypoint (.list (exe :: args))
        = [( EENV_ORIGINAL_ENTRYPOINT,
             exe ++ " " ++ String.intercalate " " (args.map (fun a => "\"" ++ a ++ "\"")))]
    ∧ (s ≠ "" → parse_entrypoint (.str s)
        = [( EENV_ORIGINAL_ENTRYPOINT, "/bin/sh -c " ++ s), ( EENV_DONT_RUN_CMD, "true")]) := by
  refine ⟨rfl, by decide, rfl, rfl, fun h => ?_⟩
  simp [parse_entrypoint, parse_entrypoint_state, h]

/-- Witness for C2 at the inputs of the spec examples. -/
theorem parse_entrypoint_contract_witness :
    parse_entrypoint (.list ["/bin/foo", "a", "b"])
      = [( EENV_ORIGINAL_ENTRYPOINT, "/bin/foo \"a\" \"b\"")]
    ∧ parse_entrypoint (.str "echo hi")
      = [( EENV_ORIGINAL_ENTRYPOINT, "/bin/sh -c echo hi"), ( EENV_DONT_RUN_CMD, "true")] := by
  have h := parse_entrypoint_contract "/bin/foo" "echo hi" ["a", "b"]
  refine ⟨?_, ?_⟩
  · rw [h.2.2.2.1]; decide
  · rw [h.2.2.2.2 (by decide)]; decide

/- ===== C9: parse_entrypoint mutates a list argument in place ===== -/

/-- Claim C9: the source pops the head of an exec-form list in place, so
after the call a non-empty list argument holds only the former arguments,
while string, absent and empty-list inputs are left unchanged. -/
theorem parse_entrypoint_frame (exe s : String) (rest : List String) :
    (parse_entrypoint_state (.list (exe :: rest))).2 = .list rest
    ∧ (parse_entrypoint_state (.str s)).2 = .str s
    ∧ (parse_entrypoint_state .null).2 = .null
    ∧ (parse_entrypoint_state (.list [])).2 = .list [] := by
  refine ⟨rfl, ?_, rfl, rfl⟩
  by_cases h : s = "" <;> simp [parse_entrypoint_state, h]

/- ===== C4: service_add_main_port ===== -/

/-- Claim C4: with no declared primary port the call is a no-op; with primary
port p and allocator answer h it records exactly the assigned-port label
(value the decimal string of h) and the port map entry p to h, changing
nothing else. -/
theorem service_add_main_port_spec (b : ContainerBuilder) (s : Service)
    (alloc : Nat → Nat) :
    (s.port = none → service_add_main_port b s alloc = b)
    ∧ (∀ p : Nat, s.port = some p →
        service_add_main_port b s alloc =
          { b with
            labels := upsert b.labels RIPTIDE_DOCKER_LABEL_HTTP_PORT
              (toString (alloc DOCKER_ENGINE_HTTP_PORT_BND_START)),
            ports := upsert b.ports p (alloc DOCKER_ENGINE_HTTP_PORT_BND_START) }) := by
  constructor
  · intro h; simp [service_add_main_port, h]
  · intro p hp; simp [service_add_main_port, hp, set_label, set_port]

/-- Witness for C4: port 8080, allocator returning 30005. -/
theorem service_add_main_port_spec_witness :
    service_add_main_port sampleBuilder sampleService (fun _ => 30005)
      = { sampleBuilder with
          labels := upsert sampleBuilder.labels RIPTIDE_DOCKER_LABEL_HTTP_PORT "30005",
          ports := upsert sampleBuilder.ports 8080 30005 } := by
  have h := (service_add_main_port_spec sampleBuilder sampleService (fun _ => 30005)).2 8080 rfl
  rw [h]; decide

/- ===== C5: start_project ===== -/

/-- Claim C5: start_project returns one queue per requested name in request
order; a declared name gets an asynchronous start task scheduled, an
undeclared name gets its queue immediately terminated with the
service-not-found error; the function itself is total (it never throws for an
undeclared name). -/
theorem start_project_spec (p : Project) (names : List String) :
    ((start_project p names).map Prod.fst = names)
    ∧ (∀ n out, (n, out) ∈ start_project p names →
        (n ∈ p.services.map Prod.fst → out = QueueOutcome.taskScheduled)
        ∧ (n ∉ p.services.map Prod.fst
            → out = QueueOutcome.endedWithError "Service not found.")) := by
  constructor
  · induction names with
    | nil => rfl
    | cons x xs ih =>
      simp only [start_project, List.map_cons] at ih ⊢
      exact congrArg (List.cons x) ih
  · intro n out hmem
    have hmem' : (n, out) ∈ names.map (fun sn =>
        (sn, if sn ∈ p.services.map Prod.fst then QueueOutcome.taskScheduled
             else QueueOutcome.endedWithError "Service not found.")) := hmem
    obtain ⟨a, ha, heq⟩ := List.mem_map.mp hmem'
    have h1 : a = n := congrArg Prod.fst heq
    have h2 : (if a ∈ p.services.map Prod.fst then QueueOutcome.taskScheduled
               else QueueOutcome.endedWithError "Service not found.") = out :=
      congrArg Prod.snd heq
    subst h1
    constructor
    · intro hd; rw [if_pos hd] at h2; exact h2.symm
    · intro hd; rw [if_neg hd] at h2; exact h2.symm

/-- A sample project declaring only the service "a". -/
def sampleProject : Project := { name := "p", services := [("a", sampleService)] }

/-- Witness for C5: requesting a declared and an undeclared service. -/
theorem start_project_spec_witness :
    ((start_project sampleProject ["a", "unknown"]).map Prod.fst = ["a", "unknown"])
    ∧ (("unknown", QueueOutcome.endedWithError "Service not found.")
        ∈ start_project sampleProject ["a", "unknown"])
    ∧ (("a", QueueOutcome.taskScheduled) ∈ start_project sampleProject ["a", "unknown"]) := by
  refine ⟨(start_project_spec sampleProject ["a", "unknown"]).1, by decide, by decide⟩

/- ===== C6: privilege environment variables ===== -/

/-- Claim C6: target uid and gid vars are emitted exactly when the service
does not disable user creation; the run-main-as-user flag is emitted when the
service requests running as the current user, or else when the image declares
a non-empty default user, in which case the user-to-run-as var carries that
user; otherwise neither flag nor user-to-run-as is emitted. -/
theorem user_settings_spec (s : Service) (uid gid : Nat) (ic : ImageConfig) :
    alookup (service_collect_entrypoint_user_settings s uid gid ic) EENV_USER
      = (if s.dont_create_user then none else some (toString uid))
    ∧ alookup (service_collect_entrypoint_user_settings s uid gid ic) EENV_GROUP
      = (if s.dont_create_user then none else some (toString gid))
    ∧ alookup (service_collect_entrypoint_user_settings s uid gid ic) EENV_RUN_MAIN_CMD_AS_USER
      = (if s.run_as_current_user then some "yes"
         else (optSet ic.user).map (fun _ => "yes"))
    ∧ alookup (service_collect_entrypoint_user_settings s uid gid ic) EENV_USER_RUN
      = (if s.run_as_current_user then none else optSet ic.user) := by
  have e1 : ( EENV_USER : String) ≠ EENV_GROUP := by decide
  have e2 : ( EENV_USER : String) ≠ EENV_RUN_MAIN_CMD_AS_USER := by decide
  have e3 : ( EENV_USER : String) ≠ EENV_USER_RUN := by decide
  have e4 : ( EENV_GROUP : String) ≠ EENV_RUN_MAIN_CMD_AS_USER := by decide
  have e5 : ( EENV_GROUP : String) ≠ EENV_USER_RUN := by decide
  have e6 : ( EENV_RUN_MAIN_CMD_AS_USER : String) ≠ EENV_USER_RUN := by decide
  unfold service_collect_entrypoint_user_settings
  rcases hd : s.dont_create_user <;> rcases hr : s.run_as_current_user <;>
    rcases hu : ic.user with _ | u
  all_goals
    first
      | (by_cases hu0 : u = "" <;>
          simp [alookup_upsert, alookup, optSet, hu0, e1, e2, e3, e4, e5, e6,
                e1.symm, e2.symm, e3.symm, e4.symm, e5.symm, e6.symm])
      | simp [alookup_upsert, alookup, optSet, e1, e2, e3, e4, e5, e6,
              e1.symm, e2.symm, e3.symm, e4.symm, e5.symm, e6.symm]

/- ===== C7: address_for ===== -/

/-- Claim C7: an address is returned exactly when the service declares a
primary port, the container with the derived name exists, it is running and
it carries the assigned-port label; a failing condition or a modelled backend
error yields none (the errors are caught, never propagated), and a returned
address is the loopback host paired with the label value. -/
theorem address_for_spec (pn sn : String) (s : Service)
    (backend : String → GetResult) :
    ((address_for pn sn s backend).isSome = true
      ↔ (s.port.isSome = true
         ∧ ∃ c : DContainer,
             backend (get_service_container_name pn sn) = .found c
             ∧ c.status = "running"
             ∧ (alookup c.labels RIPTIDE_DOCKER_LABEL_HTTP_PORT).isSome = true))
    ∧ (backend (get_service_container_name pn sn) = .apiError
        → address_for pn sn s backend = none)
    ∧ (backend (get_service_container_name pn sn) = .notFound
        → address_for pn sn s backend = none)
    ∧ (∀ host port, address_for pn sn s backend = some (host, port)
        → host = "127.0.0.1"
          ∧ ∃ c : DContainer,
              backend (get_service_container_name pn sn) = .found c
              ∧ alookup c.labels RIPTIDE_DOCKER_LABEL_HTTP_PORT = some port) := by
  refine ⟨⟨?_, ?_⟩, ?_, ?_, ?_⟩
  · intro h
    cases hp : s.port with
    | none => simp [address_for, hp] at h
    | some p =>
      cases hb : backend (get_service_container_name pn sn) with
      | found c =>
        by_cases hst : c.status = "running"
        · cases hl : alookup c.labels RIPTIDE_DOCKER_LABEL_HTTP_PORT with
          | none => simp [address_for, hp, hb, hst, hl] at h
          | some v => exact ⟨by simp [hp], c, rfl, hst, by simp [hl]⟩
        · simp [address_for, hp, hb, hst] at h
      | notFound => simp [address_for, hp, hb] at h
      | apiError => simp [address_for, hp, hb] at h
  · rintro ⟨hport, c, hb, hst, hl⟩
    obtain ⟨p, hp⟩ := Option.isSome_iff_exists.mp hport
    obtain ⟨v, hv⟩ := Option.isSome_iff_exists.mp hl
    simp [address_for, hp, hb, hst, hv]
  · intro hb
    cases hp : s.port <;> simp [address_for, hp, hb]
  · intro hb
    cases hp : s.port <;> simp [address_for, hp, hb]
  · intro host port h
    cases hp : s.port with
    | none => simp [address_for, hp] at h
    | some p =>
      cases hb : backend (get_service_container_name pn sn) with
      | found c =>
        by_cases hst : c.status = "running"
        · cases hl : alookup c.labels RIPTIDE_DOCKER_LABEL_HTTP_PORT with
          | none => simp [address_for, hp, hb, hst, hl] at h
          | some v =>
            simp [address_for, hp, hb, hst, hl] at h
            exact ⟨h.1.symm, c, rfl, by rw [hl, h.2]⟩
        · simp [address_for, hp, hb, hst] at h
      | notFound => simp [address_for, hp, hb] at h
      | apiError => simp [address_for, hp, hb] at h

/-- Witness for C7: a backend error is swallowed. -/
theorem address_for_spec_witness :
    address_for "p" "web" sampleService (fun _ => GetResult.apiError) = none :=
  (address_for_spec "p" "web" sampleService (fun _ => GetResult.apiError)).2.1 rfl

/- ===== C8: last-write-wins map semantics ===== -/

theorem alookup_applyCalls {K V : Type} [DecidableEq K]
    (g : BuilderCall → Option (K × V)) (acc : ContainerBuilder → List (K × V))
    (hacc : ∀ b c, acc (applyCall b c)
      = match g c with
        | some kv => upsert (acc b) kv.1 kv.2
        | none => acc b) :
    ∀ (calls : List BuilderCall) (b : ContainerBuilder) (k : K),
      alookup (acc (applyCalls b calls)) k
        = orElseO (lastValW g calls k) (alookup (acc b) k) := by
  intro calls
  induction calls with
  | nil => intro b k; rfl
  | cons c rest ih =>
    intro b k
    have hstep : applyCalls b (c :: rest) = applyCalls (applyCall b c) rest := rfl
    rw [hstep, ih]
    cases hL : lastValW g rest k with
    | some v => simp [lastValW, hL, orElseO]
    | none =>
      simp only [lastValW, hL, orElseO]
      rw [hacc]
      cases hg : g c with
      | none => simp [orElseO]
      | some kv =>
        rw [alookup_upsert]
        by_cases hk : kv.1 = k <;> simp [hk, orElseO]

theorem env_lookup_calls (b : ContainerBuilder) (calls : List BuilderCall) (k : String) :
    alookup (applyCalls b calls).env k = orElseO (lastEnvWrite calls k) (alookup b.env k) :=
  alookup_applyCalls envWriteOf (fun b => b.env)
    (by intro b c; cases c <;> rfl) calls b k

theorem label_lookup_calls (b : ContainerBuilder) (calls : List BuilderCall) (k : String) :
    alookup (applyCalls b calls).labels k
      = orElseO (lastLabelWrite calls k) (alookup b.labels k) :=
  alookup_applyCalls labelWriteOf (fun b => b.labels)
    (by intro b c; cases c <;> rfl) calls b k

theorem mount_lookup_calls (b : ContainerBuilder) (calls : List BuilderCall) (k : String) :
    alookup (applyCalls b calls).mounts k
      = orElseO (lastMountWrite calls k) (alookup b.mounts k) :=
  alookup_applyCalls mountWriteOf (fun b => b.mounts)
    (by intro b c; cases c <;> rfl) calls b k

theorem port_lookup_calls (b : ContainerBuilder) (calls : List BuilderCall) (cnt : Nat) :
    alookup (applyCalls b calls).ports cnt
      = orElseO (lastPortWrite calls cnt) (alookup b.ports cnt) :=
  alookup_applyCalls portWriteOf (fun b => b.ports)
    (by intro b c; cases c <;> rfl) calls b cnt

/-- Claim C8: after any sequence of map-valued mutator calls, each of the
four maps holds, at each key, the value of the last call on that key (or the
pre-existing value when the sequence never writes the key); hence calls on
distinct keys do not interfere, and two sequences agreeing on the last write
per key produce the same final map content whatever their order. -/
theorem builder_map_semantics (b : ContainerBuilder)
    (calls calls2 : List BuilderCall) (k : String) (cnt : Nat) :
    (alookup (applyCalls b calls).env k
      = orElseO (lastEnvWrite calls k) (alookup b.env k))
    ∧ (alookup (applyCalls b calls).labels k
      = orElseO (lastLabelWrite calls k) (alookup b.labels k))
    ∧ (alookup (applyCalls b calls).mounts k
      = orElseO (lastMountWrite calls k) (alookup b.mounts k))
    ∧ (alookup (applyCalls b calls).ports cnt
      = orElseO (lastPortWrite calls cnt) (alookup b.ports cnt))
    ∧ ((∀ k', lastEnvWrite calls k' = lastEnvWrite calls2 k')
       → (∀ k', lastLabelWrite calls k' = lastLabelWrite calls2 k')
       → (∀ k', lastMountWrite calls k' = lastMountWrite calls2 k')
       → (∀ c', lastPortWrite calls c' = lastPortWrite calls2 c')
       → (∀ k' c', alookup (applyCalls b calls).env k' = alookup (applyCalls b calls2).env k'
            ∧ alookup (applyCalls b calls).labels k' = alookup (applyCalls b calls2).labels k'
            ∧ alookup (applyCalls b calls).mounts k' = alookup (applyCalls b calls2).mounts k'
            ∧ alookup (applyCalls b calls).ports c' = alookup (applyCalls b calls2).ports c')) := by
  refine ⟨env_lookup_calls b calls k, label_lookup_calls b calls k,
          mount_lookup_calls b calls k, port_lookup_calls b calls cnt,
          fun he hl hm hp k' c' => ?_⟩
  refine ⟨?_, ?_, ?_, ?_⟩
  · rw [env_lookup_calls, env_lookup_calls, he]
  · rw [label_lookup_calls, label_lookup_calls, hl]
  · rw [mount_lookup_calls, mount_lookup_calls, hm]
  · rw [port_lookup_calls, port_lookup_calls, hp]

/-- Witness for C8: two reordered sequences agreeing on the last write per
key produce the same content. -/
theorem builder_map_semantics_witness :
    alookup (applyCalls sampleBuilder
        [BuilderCall.env "A" "1", BuilderCall.label "L" "x", BuilderCall.env "A" "2"]).env "A"
      = alookup (applyCalls sampleBuilder
        [BuilderCall.label "L" "x", BuilderCall.env "A" "2"]).env "A" := by
  have h := (builder_map_semantics sampleBuilder
    [BuilderCall.env "A" "1", BuilderCall.label "L" "x", BuilderCall.env "A" "2"]
    [BuilderCall.label "L" "x", BuilderCall.env "A" "2"] "A" 0).2.2.2.2
  exact (h
    (by intro k'
        by_cases hk : ("A" : String) = k' <;>
          simp [lastEnvWrite, lastValW, envWriteOf, hk])
    (by intro k'
        by_cases hk : ("L" : String) = k' <;>
          simp [lastLabelWrite, lastValW, labelWriteOf, hk])
    (fun _ => rfl) (fun _ => rfl) "A" 0).1

/- ===== C3: the delegated consistency suffix ===== -/

/-- Claim C3: every mount of the builder contributes its -v token to the CLI
invocation, consisting of host path, container path and ro/rw mode, with the
":delegated" consistency suffix appended when and only when the platform
probe reports the Mac family; otherwise the token ends with just the mode. -/
theorem cli_mount_delegated_iff_mac (b : ContainerBuilder) (system host : String)
    (m : Mount) (hm : (host, m) ∈ b.mounts) :
    ["-v", m.source ++ ":" ++ m.target ++ ":" ++ (if m.read_only then "ro" else "rw")
           ++ (if isMacFamily system then ":delegated" else "")]
      <:+: build_docker_cli b system := by
  have h1 : cliMountTok system m <:+: catMap (fun hm => cliMountTok system hm.2) b.mounts := by
    simpa using isInfix_catMap_of_mem (fun hm => cliMountTok system hm.2) b.mounts (host, m) hm
  have h2 := isInfix_append_left_right (cliMountTok system m)
    (catMap (fun hm => cliMountTok system hm.2) b.mounts)
    (["docker", "run", "--rm", "-it"] ++ cliOptTokens b
      ++ catMap (fun kv => ["-e", kv.1 ++ "=" ++ kv.2]) b.env
      ++ catMap (fun kv => ["--label", kv.1 ++ "=" ++ kv.2]) b.labels
      ++ catMap (fun ch => ["-p", toString ch.2 ++ ":" ++ toString ch.1]) b.ports)
    [b.image, cmdJoin b.command ++ " " ++ quoteJoin b.args] h1
  simpa [build_docker_cli, cliMountTok] using h2

/-- A builder carrying one read-only mount. -/
def mountedBuilder : ContainerBuilder :=
  set_mount (mkContainerBuilder "img" (Cmd.str "run")) "/h" "/c" "ro"

/-- Witness for C3 on a non-Mac platform: the token ends with the mode. -/
theorem cli_mount_delegated_iff_mac_witness :
    ["-v", (mountOf "/h" "/c" "ro").source ++ ":" ++ (mountOf "/h" "/c" "ro").target ++ ":"
           ++ (if (mountOf "/h" "/c" "ro").read_only then "ro" else "rw")
           ++ (if isMacFamily "Linux" then ":delegated" else "")]
      <:+: build_docker_cli mountedBuilder "Linux" :=
  cli_mount_delegated_iff_mac mountedBuilder "Linux" "/h" (mountOf "/h" "/c" "ro") (by decide)

/- ===== C1: equivalence of the two emission paths ===== -/

/-- Rendering the semantics read off the API bundle gives the CLI invocation
up to the final command token. -/
theorem cliTokensOfSem_api (b : ContainerBuilder) (detach remove : Bool)
    (system : String) :
    cliTokensOfSem (apiSem (build_docker_api b detach remove)) system
      = ["docker", "run", "--rm", "-it"]
        ++ cliOptTokens b
        ++ catMap (fun kv => ["-e", kv.1 ++ "=" ++ kv.2]) b.env
        ++ catMap (fun kv => ["--label", kv.1 ++ "=" ++ kv.2]) b.labels
        ++ catMap (fun ch => ["-p", toString ch.2 ++ ":" ++ toString ch.1]) b.ports
        ++ catMap (fun hm => cliMountTok system hm.2) b.mounts
        ++ [b.image, cmdJoin (build_docker_api b detach remove).command] := by
  have hentry : listTokens "--entrypoint" ((optSet b.entrypoint).map (fun e => [e]))
      = optTokens "--entrypoint" (optSet b.entrypoint) := by
    cases optSet b.entrypoint <;> rfl
  have huser : natTokens "-u" (if b.run_as_root then some 0 else none)
      = (if b.run_as_root then ["-u", toString (0 : Nat)] else []) := by
    cases b.run_as_root <;> rfl
  simp [cliTokensOfSem, apiSem, build_docker_api, cliOptTokens, hentry, huser,
        catMap_map, List.append_assoc]

/-- Claim C1 as stated is false: the final command strings of the two
emission paths differ on a builder with no extra arguments, because the CLI
path always appends a space and the joined quoted arguments. All other
tokens agree. -/
theorem api_cli_strict_counterexample :
    build_docker_cli (mkContainerBuilder "img" (Cmd.str "echo hi")) "Linux"
      ≠ cliTokensOfSem
          (apiSem (build_docker_api (mkContainerBuilder "img" (Cmd.str "echo hi")) false true))
          "Linux"
    ∧ (build_docker_cli (mkContainerBuilder "img" (Cmd.str "echo hi")) "Linux").getLastD ""
        = "echo hi "
    ∧ (apiSem (build_docker_api (mkContainerBuilder "img" (Cmd.str "echo hi")) false true)).cmdString
        = "echo hi" := by
  refine ⟨by decide, by decide, by decide⟩

/-- Claim C1 (amended): for every builder state the two emission paths agree
on every launch component - image, conditional options, env, labels, ports
and mounts produce identical tokens - and on the final command up to one
trailing space: the CLI command token is the space-joined API command string
followed by a single trailing space exactly when there are no extra
arguments, and is that string verbatim when extra arguments are present. -/
theorem api_cli_semantic_equiv (b : ContainerBuilder) (detach remove : Bool)
    (system : String) :
    ((build_docker_cli b system).dropLast
      = (cliTokensOfSem (apiSem (build_docker_api b detach remove)) system).dropLast)
    ∧ ((build_docker_cli b system).getLastD ""
      = (apiSem (build_docker_api b detach remove)).cmdString
        ++ (if b.args.isEmpty then " " else ""))
    ∧ (b.args ≠ [] → (build_docker_cli b system).getLastD ""
        = (apiSem (build_docker_api b detach remove)).cmdString) := by
  have hq : ∀ l : List String, (l.map (fun w => "\"" ++ w ++ "\"")) = [] → l = [] := by
    intro l h; cases l <;> simp_all
  refine ⟨?_, ?_, ?_⟩
  · rw [cliTokensOfSem_api]
    unfold build_docker_cli
    rw [dropLast_append_two, dropLast_append_two]
  · unfold build_docker_cli
    rw [getLastD_append_two]
    cases hargs : b.args with
    | nil =>
      simp [apiSem, build_docker_api, hargs, quoteJoin, str_append_empty]
      rw [show String.intercalate " " ([] : List String) = "" from rfl, str_append_empty]
    | cons a as =>
      simp [apiSem, build_docker_api, hargs, cmdJoin, str_append_empty]
  · intro hne
    unfold build_docker_cli
    rw [getLastD_append_two]
    cases hargs : b.args with
    | nil => exact absurd hargs hne
    | cons a as =>
      simp [apiSem, build_docker_api, hargs, cmdJoin, str_append_empty]

/-- Witness for C1 (amended) with extra arguments present: the final command
token of the CLI equals the API command string verbatim. -/
theorem api_cli_semantic_equiv_witness :
    (build_docker_cli (set_args (mkContainerBuilder "img" (Cmd.str "echo hi")) ["x"]) "Linux").getLastD ""
      = (apiSem (build_docker_api
          (set_args (mkContainerBuilder "img" (Cmd.str "echo hi")) ["x"]) false true)).cmdString :=
  (api_cli_semantic_equiv (set_args (mkContainerBuilder "img" (Cmd.str "echo hi")) ["x"])
    false true "Linux").2.2 (by decide)

/- ===== C10: the is-managed marker label ===== -/

theorem labels_env_foldl (l : List (String × String)) :
    ∀ b : ContainerBuilder,
      (l.foldl (fun b kv => set_env b kv.1 kv.2) b).labels = b.labels := by
  induction l with
  | nil => intro b; rfl
  | cons kv rest ih => intro b; exact ih (set_env b kv.1 kv.2)

theorem labels_mountvol_foldl (l : List (String × VolumeEntry)) :
    ∀ b : ContainerBuilder,
      (l.foldl (fun b hv => set_mount b hv.1 hv.2.bind (orRw hv.2.mode)) b).labels
        = b.labels := by
  induction l with
  | nil => intro b; rfl
  | cons hv rest ih => intro b; exact ih _

theorem labels_port_foldl (l : List (Nat × Nat)) :
    ∀ b : ContainerBuilder,
      (l.foldl (fun b ch => set_port b ch.1 ch.2) b).labels = b.labels := by
  induction l with
  | nil => intro b; rfl
  | cons ch rest ih => intro b; exact ih _

theorem labels_enable (b : ContainerBuilder) (ic : ImageConfig) :
    (enable_riptide_entrypoint b ic).labels = b.labels := by
  show ((parse_entrypoint ic.entrypoint).foldl (fun b kv => set_env b kv.1 kv.2)
      (set_mount { b with run_as_root := true } riptide_entrypoint_script
        ENTRYPOINT_CONTAINER_PATH "ro")).labels = b.labels
  rw [labels_env_foldl]
  rfl

theorem labels_init_common (b : ContainerBuilder) (volumes : List (String × VolumeEntry))
    (environment : List (String × String)) (ic : ImageConfig) :
    (init_common b volumes environment ic).labels = b.labels := by
  show (environment.foldl (fun b kv => set_env b kv.1 kv.2)
      (volumes.foldl (fun b hv => set_mount b hv.1 hv.2.bind (orRw hv.2.mode))
        (enable_riptide_entrypoint b ic))).labels = b.labels
  rw [labels_env_foldl, labels_mountvol_foldl, labels_enable]

/-- The value of the last pair with the given key in a plain pair list. -/
def lastPairVal {K V : Type} [DecidableEq K] : List (K × V) → K → Option V
  | [], _ => none
  | kv :: rest, k =>
    match lastPairVal rest k with
    | some v => some v
    | none => if kv.1 = k then some kv.2 else none

theorem alookup_label_foldl (l : List (String × String)) :
    ∀ (b : ContainerBuilder) (k : String),
      alookup ((l.foldl (fun b kv => set_label b kv.1 kv.2) b).labels) k
        = orElseO (lastPairVal l k) (alookup b.labels k) := by
  induction l with
  | nil => intro b k; rfl
  | cons kv rest ih =>
    intro b k
    have hstep : (kv :: rest).foldl (fun b kv => set_label b kv.1 kv.2) b
        = rest.foldl (fun b kv => set_label b kv.1 kv.2) (set_label b kv.1 kv.2) := rfl
    rw [hstep, ih]
    cases hL : lastPairVal rest k with
    | some v => simp [lastPairVal, hL, orElseO]
    | none =>
      simp only [lastPairVal, hL, orElseO]
      show orElseO none (alookup (upsert b.labels kv.1 kv.2) k) = _
      rw [show orElseO none (alookup (upsert b.labels kv.1 kv.2) k)
            = alookup (upsert b.labels kv.1 kv.2) k from rfl]
      rw [alookup_upsert]
      by_cases hk : kv.1 = k <;> simp [hk, orElseO]

theorem scl_marker (s : Service) (pn : String) :
    lastPairVal (service_collect_labels s pn) RIPTIDE_DOCKER_LABEL_IS_RIPTIDE
      = some "1" := by
  have h1 : RIPTIDE_DOCKER_LABEL_PROJECT ≠ RIPTIDE_DOCKER_LABEL_IS_RIPTIDE := by decide
  have h2 : RIPTIDE_DOCKER_LABEL_SERVICE ≠ RIPTIDE_DOCKER_LABEL_IS_RIPTIDE := by decide
  have h3 : RIPTIDE_DOCKER_LABEL_MAIN ≠ RIPTIDE_DOCKER_LABEL_IS_RIPTIDE := by decide
  have h4 : RIPTIDE_DOCKER_LABEL_IS_RIPTIDE ≠ RIPTIDE_DOCKER_LABEL_MAIN := by decide
  have h5 : RIPTIDE_DOCKER_LABEL_PROJECT ≠ RIPTIDE_DOCKER_LABEL_MAIN := by decide
  have h6 : RIPTIDE_DOCKER_LABEL_SERVICE ≠ RIPTIDE_DOCKER_LABEL_MAIN := by decide
  unfold service_collect_labels
  cases s.roles with
  | none => simp [lastPairVal, h1, h2, h3]
  | some roles =>
    by_cases hm : "main" ∈ roles <;>
      simp [lastPairVal, upsert, h1, h2, h3, h4, h5, h6, hm]

theorem marker_applyOp (b : ContainerBuilder) (op : Op)
    (hop : preservesMarker op = true)
    (hb : alookup b.labels RIPTIDE_DOCKER_LABEL_IS_RIPTIDE = some "1") :
    alookup (applyOp b op).labels RIPTIDE_DOCKER_LABEL_IS_RIPTIDE = some "1" := by
  cases op with
  | setEnv k v => exact hb
  | setLabel k v =>
    show alookup (upsert b.labels k v) RIPTIDE_DOCKER_LABEL_IS_RIPTIDE = some "1"
    rw [alookup_upsert]
    by_cases hk : k = RIPTIDE_DOCKER_LABEL_IS_RIPTIDE
    · have hv : v = "1" := by
        simp [preservesMarker, hk] at hop
        exact hop
      simp [hk, hv]
    · simp [hk, hb]
  | setMount host container mode => exact hb
  | setPort cnt host => exact hb
  | setNetwork n => exact hb
  | setName n => exact hb
  | setEntrypoint e => exact hb
  | setArgs a => exact hb
  | setWorkdir w => exact hb
  | setHostname h => exact hb
  | enableEntrypoint ic => rw [show (applyOp b (.enableEntrypoint ic)).labels
      = (enable_riptide_entrypoint b ic).labels from rfl, labels_enable]; exact hb
  | initFromService s ic uid gid =>
    show alookup ((s.additional_ports).foldl (fun b ch => set_port b ch.1 ch.2)
        ((service_collect_labels s s.project_name).foldl (fun b kv => set_label b kv.1 kv.2)
          ((dictUpdate (service_collect_logging_commands s)
              (service_collect_entrypoint_user_settings s uid gid ic)).foldl
            (fun b kv => set_env b kv.1 kv.2)
            (init_common b s.volumes s.environment ic)))).labels
        RIPTIDE_DOCKER_LABEL_IS_RIPTIDE = some "1"
    rw [labels_port_foldl, alookup_label_foldl, scl_marker]
    rfl
  | initFromCommand c ic =>
    rw [show (applyOp b (.initFromCommand c ic)).labels
      = (init_common b c.volumes c.environment ic).labels from rfl, labels_init_common]
    exact hb
  | addMainPort s alloc =>
    cases hsp : s.port with
    | none => simp [applyOp, service_add_main_port, hsp]; exact hb
    | some p =>
      have hne : RIPTIDE_DOCKER_LABEL_HTTP_PORT ≠ RIPTIDE_DOCKER_LABEL_IS_RIPTIDE := by decide
      simp [applyOp, service_add_main_port, hsp, set_label, set_port]
      rw [alookup_upsert]
      simp [hne, hb]

theorem marker_applyOps :
    ∀ (ops : List Op) (b : ContainerBuilder),
      (∀ op ∈ ops, preservesMarker op = true)
      → alookup b.labels RIPTIDE_DOCKER_LABEL_IS_RIPTIDE = some "1"
      → alookup (applyOps b ops).labels RIPTIDE_DOCKER_LABEL_IS_RIPTIDE = some "1" := by
  intro ops
  induction ops with
  | nil => intro b _ hb; exact hb
  | cons op rest ih =>
    intro b hops hb
    exact ih (applyOp b op) (fun o ho => hops o (List.mem_cons_of_mem _ ho))
      (marker_applyOp b op (hops op (List.mem_cons_self _ _)) hb)

/-- Claim C10: a freshly constructed builder carries the is-managed marker
label riptide=1, every operation sequence that never overwrites the marker
key with another value preserves it (init_from_service re-establishes the
same value), and both emission paths include the marker in their output. -/
theorem riptide_label_invariant (image : String) (command : Cmd) (ops : List Op)
    (detach remove : Bool) (system : String)
    (hops : ∀ op ∈ ops, preservesMarker op = true) :
    alookup (applyOps (mkContainerBuilder image command) ops).labels
        RIPTIDE_DOCKER_LABEL_IS_RIPTIDE = some "1"
    ∧ alookup (build_docker_api (applyOps (mkContainerBuilder image command) ops)
        detach remove).labels RIPTIDE_DOCKER_LABEL_IS_RIPTIDE = some "1"
    ∧ ["--label", RIPTIDE_DOCKER_LABEL_IS_RIPTIDE ++ "=" ++ "1"]
        <:+: build_docker_cli (applyOps (mkContainerBuilder image command) ops) system := by
  have hinit : alookup (mkContainerBuilder image command).labels
      RIPTIDE_DOCKER_LABEL_IS_RIPTIDE = some "1" := by
    simp [mkContainerBuilder, alookup_upsert_self]
  have h1 := marker_applyOps ops (mkContainerBuilder image command) hops hinit
  refine ⟨h1, h1, ?_⟩
  have hmem := mem_of_alookup_eq_some _ _ _ h1
  have hinf := isInfix_catMap_of_mem
    (fun kv => ["--label", kv.1 ++ "=" ++ kv.2])
    (applyOps (mkContainerBuilder image command) ops).labels
    (RIPTIDE_DOCKER_LABEL_IS_RIPTIDE, "1") hmem
  have h2 := isInfix_append_left_right _ _
    (["docker", "run", "--rm", "-it"]
      ++ cliOptTokens (applyOps (mkContainerBuilder image command) ops)
      ++ catMap (fun kv => ["-e", kv.1 ++ "=" ++ kv.2])
          (applyOps (mkContainerBuilder image command) ops).env)
    (catMap (fun ch => ["-p", toString ch.2 ++ ":" ++ toString ch.1])
        (applyOps (mkContainerBuilder image command) ops).ports
      ++ catMap (fun hm => cliMountTok system hm.2)
          (applyOps (mkContainerBuilder image command) ops).mounts
      ++ [(applyOps (mkContainerBuilder image command) ops).image,
          cmdJoin (applyOps (mkContainerBuilder image command) ops).command
            ++ " " ++ quoteJoin (applyOps (mkContainerBuilder image command) ops).args])
    hinf
  have hdecomp : build_docker_cli (applyOps (mkContainerBuilder image command) ops) system
      = (["docker", "run", "--rm", "-it"]
          ++ cliOptTokens (applyOps (mkContainerBuilder image command) ops)
          ++ catMap (fun kv => ["-e", kv.1 ++ "=" ++ kv.2])
              (applyOps (mkContainerBuilder image command) ops).env)
        ++ catMap (fun kv => ["--label", kv.1 ++ "=" ++ kv.2])
            (applyOps (mkContainerBuilder image command) ops).labels
        ++ (catMap (fun ch => ["-p", toString ch.2 ++ ":" ++ toString ch.1])
              (applyOps (mkContainerBuilder image command) ops).ports
            ++ catMap (fun hm => cliMountTok system hm.2)
                (applyOps (mkContainerBuilder image command) ops).mounts
            ++ [(applyOps (mkContainerBuilder image command) ops).image,
                cmdJoin (applyOps (mkContainerBuilder image command) ops).command
                  ++ " " ++ quoteJoin (applyOps (mkContainerBuilder image command) ops).args]) := by
    simp [build_docker_cli, List.append_assoc]
  rw [hdecomp]
  exact h2

/-- Witness for C10: a marker-preserving operation sequence that includes a
service initialization. -/
theorem riptide_label_invariant_witness :
    alookup (applyOps (mkContainerBuilder "img" (Cmd.str "run"))
        [Op.setEnv "A" "B",
         Op.initFromService sampleService { entrypoint := .null, user := none } 1000 1000,
         Op.setLabel "other" "x"]).labels
      RIPTIDE_DOCKER_LABEL_IS_RIPTIDE = some "1" :=
  (riptide_label_invariant "img" (Cmd.str "run")
    [Op.setEnv "A" "B",
     Op.initFromService sampleService { entrypoint := .null, user := none } 1000 1000,
     Op.setLabel "other" "x"] false true "Linux"
    (by intro op hop
        simp only [List.mem_cons, List.not_mem_nil, or_false] at hop
        rcases hop with h | h | h
        all_goals (subst h; rfl))).1

end Riptide
